import Mathlib

/-!
Shallow embedding of the PerfTrace session-orchestration and
trace-reconciliation engine (`src/lib/playwrightUtils.ts`).

JavaScript numbers are modelled as `ℚ`; all arithmetic appearing in the
embedded code (thresholds, divisions by 1000 / 1_000_000, clamps, floors)
is exact at the inputs considered. JS `Array.prototype.sort` with the
comparator `(a, b) => a.timeSec - b.timeSec` is modelled as a stable sort
by `timeSec` (`List.insertionSort`), which agrees with the engine's sort
on every list whose keys are distinct and is sorted/stable in general.
JS `Map` is modelled as an insertion-ordered association list.
Platform effects (CDP calls, file IO, screenshots, video files) are
modelled as explicit environment inputs; the `new URL` platform parser is
a parameter of the URL-validation model.
-/

namespace PerfTrace

/-- A chart point `(timeSec, value)`, as in `reportTypes.MetricPoint`. -/
structure MetricPoint where
  timeSec : ℚ
  value : ℚ
deriving Repr, DecidableEq

/-- The optional counter payload of an `UpdateCounters` trace event
(`event.args?.data`), with the numeric fields the engine reads. -/
structure CounterData where
  jsHeapSizeUsed : Option ℚ := none
  jsHeapSize : Option ℚ := none
  usedJSHeapSize : Option ℚ := none
  nodes : Option ℚ := none
  documentCount : Option ℚ := none
deriving Repr, DecidableEq

/-- A decoded trace event (type `TraceEvent` in the source); every field is
optional, mirroring `name?`, `cat?`, `ph?`, `ts?`, `dur?`, `args?`. -/
structure TraceEvent where
  name : Option String := none
  cat : Option String := none
  ph : Option String := none
  ts : Option ℚ := none
  dur : Option ℚ := none
  argsData : Option CounterData := none
deriving Repr, DecidableEq

/-- A labelled metric series (`MetricSeries` in `reportTypes`). -/
structure MetricSeries where
  label : String
  unit : String
  points : List MetricPoint
deriving Repr, DecidableEq

/-- One recorded long task (`{ name, durationMs, startSec }` in `parseTrace`). -/
structure LongTaskEntry where
  name : String
  durationMs : ℚ
  startSec : ℚ
deriving Repr, DecidableEq

/-- The `longTasks` summary of the report. -/
structure LongTasksSummary where
  count : Nat
  totalTimeMs : ℚ
  topTasks : List LongTaskEntry
deriving Repr, DecidableEq

/-- The `webVitals` record of the report. -/
structure WebVitals where
  fcpMs : Option ℚ := none
  lcpMs : Option ℚ := none
  cls : Option ℚ := none
  tbtMs : ℚ
  longTaskCount : Nat
  longTaskTotalMs : ℚ
deriving Repr, DecidableEq

/-- A spike frame `(timeSec, fps)`; the embedded image data is external
file content and is not modelled. -/
structure SpikeFrame where
  timeSec : ℚ
  fps : ℚ
deriving Repr, DecidableEq

/-- The claim-relevant projection of `PerfReport`: timestamps, duration,
the five metric series, the long-task summary, web vitals and spike
frames. (Network, WebGL, render-breakdown, animation and suggestion
fields are not referenced by any claim and are omitted.) -/
structure PerfReport where
  startedAtMs : ℚ
  stoppedAtMs : ℚ
  durationMs : ℚ
  fpsSeries : MetricSeries
  cpuSeries : MetricSeries
  gpuSeries : MetricSeries
  memorySeries : MetricSeries
  domNodesSeries : MetricSeries
  longTasks : LongTasksSummary
  webVitals : WebVitals
  spikeFrames : List SpikeFrame
deriving Repr, DecidableEq

/-- One polling-interval observation (`PerfSample` in the source). -/
structure PerfSample where
  timeSec : ℚ
  cpuBusyMs : ℚ
  scriptMs : ℚ
  layoutMs : ℚ
  jsHeapMb : Option ℚ := none
  nodes : Option ℚ := none
deriving Repr, DecidableEq

/-- An in-page long-task record (`{ start, duration }`). -/
structure PageLongTask where
  start : ℚ
  duration : ℚ
deriving Repr, DecidableEq

/-- The in-page collector snapshot (`ClientCollector` in the source). -/
structure ClientCollector where
  longTasks : List PageLongTask
  cls : ℚ
  fcp : Option ℚ := none
  lcp : Option ℚ := none
deriving Repr, DecidableEq

/-- The fallback data handed from `stopRecording` to `parseTrace` /
`buildFallbackReport` (samples and in-page FPS samples; the network and
animation lists are not referenced by any claim). -/
structure FallbackData where
  samples : List PerfSample
  fpsSamples : List MetricPoint
deriving Repr, DecidableEq

/-! ### Small helpers: JS string/array/Map primitives -/

/-- Whether `pat` is an initial segment of `l` (helper for substring test). -/
def charListLeads : List Char → List Char → Bool
  | [], _ => true
  | _ :: _, [] => false
  | p :: ps, c :: cs => p == c && charListLeads ps cs

/-- Whether `pat` occurs contiguously inside `l` (helper for substring test). -/
def charListHas (pat : List Char) : List Char → Bool
  | [] => pat.isEmpty
  | c :: cs => charListLeads pat (c :: cs) || charListHas pat cs

/-- JS `String.prototype.includes`. -/
def strIncludes (s pat : String) : Bool := charListHas pat.toList s.toList

/-- `Math.min(...)` over a spread list (only used on non-empty lists). -/
def listMinQ : List ℚ → ℚ
  | [] => 0
  | x :: xs => xs.foldl min x

/-- `Math.max(...)` over a spread list (only used on non-empty lists). -/
def listMaxQ : List ℚ → ℚ
  | [] => 0
  | x :: xs => xs.foldl max x

/-- `bucket.set(second, (bucket.get(second) ?? 0) + value)` on an
insertion-ordered association list (JS `Map` model). -/
def bucketAdd : List (Int × ℚ) → Int → ℚ → List (Int × ℚ)
  | [], k, v => [(k, v)]
  | (k0, v0) :: rest, k, v =>
    if k0 = k then (k0, v0 + v) :: rest else (k0, v0) :: bucketAdd rest k v

/-- Ordering of metric points by `timeSec` (the sort comparator
`(a, b) => a.timeSec - b.timeSec`). -/
def ptLe (a b : MetricPoint) : Prop := a.timeSec ≤ b.timeSec

instance : DecidableRel ptLe := fun a b => inferInstanceAs (Decidable (a.timeSec ≤ b.timeSec))

instance : IsTotal MetricPoint ptLe := ⟨fun a b => le_total a.timeSec b.timeSec⟩

instance : IsTrans MetricPoint ptLe := ⟨fun _ _ _ hab hbc => le_trans hab hbc⟩

/-- `points.sort((a, b) => a.timeSec - b.timeSec)`. -/
def sortByTime (points : List MetricPoint) : List MetricPoint := points.insertionSort ptLe

/-- Ordering of bucket entries by key (the sort `(a, b) => a[0] - b[0]`). -/
def keyLe (a b : Int × ℚ) : Prop := a.1 ≤ b.1

instance : DecidableRel keyLe := fun a b => inferInstanceAs (Decidable (a.1 ≤ b.1))

/-- `mapToSeries`: sort the bucket entries by key and turn them into points. -/
def mapToSeries (bucket : List (Int × ℚ)) (label unit : String) : MetricSeries :=
  { label := label, unit := unit,
    points := (bucket.insertionSort keyLe).map fun kv => ⟨(kv.1 : ℚ), kv.2⟩ }

/-! ### Trace time-base inference (`parseTrace`, lines 929-958) -/

/-- All finite `ts` values of the decoded events. -/
def eventTss (events : List TraceEvent) : List ℚ := events.filterMap (·.ts)

/-- `startTs`: minimum event timestamp (0 when no event carries one). -/
def traceStartTs (events : List TraceEvent) : ℚ := listMinQ (eventTss events)

/-- `endTs`: maximum event timestamp (0 when no event carries one). -/
def traceEndTs (events : List TraceEvent) : ℚ := listMaxQ (eventTss events)

/-- `wallClockDurationMs = Math.max(0, stoppedAt - startedAt)`. -/
def wallClockDurationMs (startedAt stoppedAt : ℚ) : ℚ := max 0 (stoppedAt - startedAt)

/-- `rawTraceSpan = endTs - startTs`. -/
def rawTraceSpan (events : List TraceEvent) : ℚ := traceEndTs events - traceStartTs events

/-- `traceTsIsMicroseconds = rawTraceSpan > 1e6`. -/
def traceTsIsMicroseconds (events : List TraceEvent) : Prop := rawTraceSpan events > 1000000

instance (events : List TraceEvent) : Decidable (traceTsIsMicroseconds events) :=
  inferInstanceAs (Decidable (rawTraceSpan events > 1000000))

/-- `traceTsToSec`: the native-unit divisor (1e6 for µs, 1e3 for ms). -/
def traceTsToSec (events : List TraceEvent) : ℚ :=
  if traceTsIsMicroseconds events then 1000000 else 1000

/-- `traceDurationMs`: the trace's own span converted to ms, 0 if empty. -/
def traceDurationMs (events : List TraceEvent) : ℚ :=
  if traceStartTs events < traceEndTs events then
    (if traceTsIsMicroseconds events then rawTraceSpan events / 1000 else rawTraceSpan events)
  else 0

/-- `traceSpanTooLarge`: the trace span dwarfs the wall clock (>10x and >60s). -/
def traceSpanTooLarge (events : List TraceEvent) (startedAt stoppedAt : ℚ) : Prop :=
  traceDurationMs events > wallClockDurationMs startedAt stoppedAt * 10 ∧
    traceDurationMs events > 60000

instance (events : List TraceEvent) (startedAt stoppedAt : ℚ) :
    Decidable (traceSpanTooLarge events startedAt stoppedAt) :=
  inferInstanceAs (Decidable (_ ∧ _))

/-- `useTraceForSeries`: the trace time base is usable at all. -/
def useTraceForSeries (events : List TraceEvent) (startedAt stoppedAt : ℚ) : Prop :=
  ¬ traceSpanTooLarge events startedAt stoppedAt ∧
    traceDurationMs events ≥ wallClockDurationMs startedAt stoppedAt * 0.8 ∧
    traceDurationMs events > 0

instance (events : List TraceEvent) (startedAt stoppedAt : ℚ) :
    Decidable (useTraceForSeries events startedAt stoppedAt) :=
  inferInstanceAs (Decidable (_ ∧ _))

/-- `tsToSec`: clamp an event timestamp into `[0, wallClockDurationSec]`,
rescaling proportionally when the trace span is absurdly large. -/
def tsToSec (events : List TraceEvent) (startedAt stoppedAt : ℚ) (ts : ℚ) : ℚ :=
  let wallClockDurationSec := wallClockDurationMs startedAt stoppedAt / 1000
  if traceSpanTooLarge events startedAt stoppedAt ∧ rawTraceSpan events > 0 then
    let ratio := (ts - traceStartTs events) / rawTraceSpan events
    max 0 (min wallClockDurationSec (ratio * wallClockDurationSec))
  else
    max 0 (min wallClockDurationSec ((ts - traceStartTs events) / traceTsToSec events))

/-- The per-second bucket index `Math.floor(tsToSec(ts))` of `addToBucket`. -/
def bucketSecond (events : List TraceEvent) (startedAt stoppedAt : ℚ) (ts : ℚ) : Int :=
  ⌊tsToSec events startedAt stoppedAt ts⌋

/-! ### Event classification sets (fixed name sets in the source) -/

/-- `FRAME_EVENT_NAMES`. -/
def FRAME_EVENT_NAMES : List String :=
  ["DrawFrame", "BeginFrame", "SwapBuffers", "CompositeLayers"]

/-! ### The event-to-series extraction loop (`parseTrace`, lines 1064-1183;
only the accumulators consumed by some claim are embedded: the fps / cpu /
gpu per-second buckets, the instantaneous memory and DOM points, and the
long-task list). -/

/-- The claim-relevant accumulators of the `for (const event of events)` loop. -/
structure ExtractAcc where
  fpsMap : List (Int × ℚ) := []
  cpuBusyMap : List (Int × ℚ) := []
  gpuBusyMap : List (Int × ℚ) := []
  memoryPoints : List MetricPoint := []
  domPoints : List MetricPoint := []
  longTasks : List LongTaskEntry := []
deriving Repr, DecidableEq

/-- The `FRAME_EVENT_NAMES.has(name)` block of the loop. -/
def frameStep (sec : Int) (name : String) (acc : ExtractAcc) : ExtractAcc :=
  if name ∈ FRAME_EVENT_NAMES then { acc with fpsMap := bucketAdd acc.fpsMap sec 1 }
  else acc

/-- The `event.ph === "X" && dur > 0` block of the loop (cpu / gpu busy). -/
def busyStep (sec : Int) (name cat : String) (ph : Option String) (dur : ℚ)
    (acc : ExtractAcc) : ExtractAcc :=
  if ph = some "X" ∧ dur > 0 then
    let durMs := dur / 1000
    let acc1 :=
      if strIncludes cat "toplevel" ∨ name = "RunTask" then
        { acc with cpuBusyMap := bucketAdd acc.cpuBusyMap sec durMs }
      else acc
    if strIncludes cat "gpu" ∨ strIncludes name "GPU" then
      { acc1 with gpuBusyMap := bucketAdd acc1.gpuBusyMap sec durMs }
    else acc1
  else acc

/-- The `name === "RunTask" && dur / 1000 > 50` block of the loop. -/
def longTaskStep (startSec : ℚ) (name : String) (dur : ℚ) (acc : ExtractAcc) : ExtractAcc :=
  if name = "RunTask" ∧ dur / 1000 > 50 then
    { acc with longTasks := acc.longTasks ++ [⟨name, dur / 1000, startSec⟩] }
  else acc

/-- The `name === "UpdateCounters"` block of the loop. -/
def countersStep (timeSec : ℚ) (name : String) (argsData : Option CounterData)
    (acc : ExtractAcc) : ExtractAcc :=
  if name = "UpdateCounters" then
    let data := argsData.getD {}
    let heap := data.jsHeapSizeUsed <|> data.jsHeapSize <|> data.usedJSHeapSize
    let nodes := data.nodes <|> data.documentCount
    let acc1 :=
      match heap with
      | some h =>
        { acc with memoryPoints := acc.memoryPoints ++ [⟨timeSec, h / (1024 * 1024)⟩] }
      | none => acc
    match nodes with
    | some n => { acc1 with domPoints := acc1.domPoints ++ [⟨timeSec, n⟩] }
    | none => acc1
  else acc

/-- One iteration of the extraction loop for event `e`: the four
independent classification blocks applied in source order. -/
def extractStep (events : List TraceEvent) (startedAt stoppedAt : ℚ)
    (acc : ExtractAcc) (e : TraceEvent) : ExtractAcc :=
  let name := e.name.getD ""
  let cat := e.cat.getD ""
  let ts := e.ts.getD 0
  let dur := e.dur.getD 0
  let sec := bucketSecond events startedAt stoppedAt ts
  let timeSec := tsToSec events startedAt stoppedAt ts
  countersStep timeSec name e.argsData
    (longTaskStep timeSec name dur
      (busyStep sec name cat e.ph dur
        (frameStep sec name acc)))

/-- The whole extraction loop. -/
def extractEvents (events : List TraceEvent) (startedAt stoppedAt : ℚ) : ExtractAcc :=
  events.foldl (extractStep events startedAt stoppedAt) {}

/-! ### Per-metric source selection (`parseTrace`, lines 1199-1348) -/

/-- `capFps`: clamp every fps value into `[0, maxFps]` (default 120). -/
def capFps (points : List MetricPoint) (maxFps : ℚ := 120) : List MetricPoint :=
  points.map fun p => { p with value := min maxFps (max 0 p.value) }

/-- The trace-derived fps bucket series points. -/
def traceFpsPoints (events : List TraceEvent) (startedAt stoppedAt : ℚ) : List MetricPoint :=
  (mapToSeries (extractEvents events startedAt stoppedAt).fpsMap "FPS" "fps").points

/-- `traceFpsMaxValue` (0 when the trace yields no fps points). -/
def traceFpsMaxValue (events : List TraceEvent) (startedAt stoppedAt : ℚ) : ℚ :=
  let pts := traceFpsPoints events startedAt stoppedAt
  if pts.length > 0 then listMaxQ (pts.map (·.value)) else 0

/-- The covered time span of a point list (0 unless it has at least 2 points). -/
def pointsTimeSpan (pts : List MetricPoint) : ℚ :=
  if pts.length ≥ 2 then
    listMaxQ (pts.map (·.timeSec)) - listMinQ (pts.map (·.timeSec))
  else 0

/-- `useTraceFps`: all four fps-source conditions. -/
def useTraceFps (events : List TraceEvent) (startedAt stoppedAt : ℚ) : Prop :=
  useTraceForSeries events startedAt stoppedAt ∧
    (extractEvents events startedAt stoppedAt).fpsMap.length > 2 ∧
    pointsTimeSpan (traceFpsPoints events startedAt stoppedAt) ≥
      wallClockDurationMs startedAt stoppedAt / 1000 * 0.5 ∧
    traceFpsMaxValue events startedAt stoppedAt ≤ 200

instance (events : List TraceEvent) (startedAt stoppedAt : ℚ) :
    Decidable (useTraceFps events startedAt stoppedAt) :=
  inferInstanceAs (Decidable (_ ∧ _))

/-- `useTraceCpu`: bucket count and covered-span conditions for cpu. -/
def useTraceCpu (events : List TraceEvent) (startedAt stoppedAt : ℚ) : Prop :=
  useTraceForSeries events startedAt stoppedAt ∧
    (extractEvents events startedAt stoppedAt).cpuBusyMap.length > 2 ∧
    pointsTimeSpan (mapToSeries (extractEvents events startedAt stoppedAt).cpuBusyMap
        "CPU Busy" "ms").points ≥
      wallClockDurationMs startedAt stoppedAt / 1000 * 0.5

instance (events : List TraceEvent) (startedAt stoppedAt : ℚ) :
    Decidable (useTraceCpu events startedAt stoppedAt) :=
  inferInstanceAs (Decidable (_ ∧ _))

/-- `useTraceGpu`: bucket count and covered-span conditions for gpu. -/
def useTraceGpu (events : List TraceEvent) (startedAt stoppedAt : ℚ) : Prop :=
  useTraceForSeries events startedAt stoppedAt ∧
    (extractEvents events startedAt stoppedAt).gpuBusyMap.length > 2 ∧
    pointsTimeSpan (mapToSeries (extractEvents events startedAt stoppedAt).gpuBusyMap
        "GPU Busy" "ms").points ≥
      wallClockDurationMs startedAt stoppedAt / 1000 * 0.5

instance (events : List TraceEvent) (startedAt stoppedAt : ℚ) :
    Decidable (useTraceGpu events startedAt stoppedAt) :=
  inferInstanceAs (Decidable (_ ∧ _))

/-- `memoryTraceMaxTime` (0 when no trace memory points exist). -/
def memoryTraceMaxTime (events : List TraceEvent) (startedAt stoppedAt : ℚ) : ℚ :=
  let pts := (extractEvents events startedAt stoppedAt).memoryPoints
  if pts.length > 0 then listMaxQ (pts.map (·.timeSec)) else 0

/-- `useTraceMemory`: non-empty and reaching 80% of the wall clock. -/
def useTraceMemory (events : List TraceEvent) (startedAt stoppedAt : ℚ) : Prop :=
  useTraceForSeries events startedAt stoppedAt ∧
    (extractEvents events startedAt stoppedAt).memoryPoints.length > 0 ∧
    memoryTraceMaxTime events startedAt stoppedAt ≥
      wallClockDurationMs startedAt stoppedAt / 1000 * 0.8

instance (events : List TraceEvent) (startedAt stoppedAt : ℚ) :
    Decidable (useTraceMemory events startedAt stoppedAt) :=
  inferInstanceAs (Decidable (_ ∧ _))

/-- `domTraceMaxTime` (0 when no trace DOM points exist). -/
def domTraceMaxTime (events : List TraceEvent) (startedAt stoppedAt : ℚ) : ℚ :=
  let pts := (extractEvents events startedAt stoppedAt).domPoints
  if pts.length > 0 then listMaxQ (pts.map (·.timeSec)) else 0

/-- `useTraceDom`: non-empty and reaching 80% of the wall clock. -/
def useTraceDom (events : List TraceEvent) (startedAt stoppedAt : ℚ) : Prop :=
  useTraceForSeries events startedAt stoppedAt ∧
    (extractEvents events startedAt stoppedAt).domPoints.length > 0 ∧
    domTraceMaxTime events startedAt stoppedAt ≥
      wallClockDurationMs startedAt stoppedAt / 1000 * 0.8

instance (events : List TraceEvent) (startedAt stoppedAt : ℚ) :
    Decidable (useTraceDom events startedAt stoppedAt) :=
  inferInstanceAs (Decidable (_ ∧ _))

/-- The cpu fallback points (`fallback.samples.map` to `(timeSec, cpuBusyMs)`). -/
def fallbackCpuPoints (fallback : FallbackData) : List MetricPoint :=
  fallback.samples.map fun s => ⟨s.timeSec, s.cpuBusyMs⟩

/-- The memory fallback points (samples carrying a `jsHeapMb`). -/
def fallbackMemoryPoints (fallback : FallbackData) : List MetricPoint :=
  (fallback.samples.filter fun s => s.jsHeapMb.isSome).map fun s =>
    ⟨s.timeSec, s.jsHeapMb.getD 0⟩

/-- The DOM fallback points (samples carrying a `nodes` count). -/
def fallbackDomPoints (fallback : FallbackData) : List MetricPoint :=
  (fallback.samples.filter fun s => s.nodes.isSome).map fun s =>
    ⟨s.timeSec, s.nodes.getD 0⟩

/-- The `for (let t = 0; t <= wallClockDurationSec; t += 10)` loop that
spreads a single gpu bucket value across the whole session. -/
def gpuFillLoop (wallClockDurationSec t v : ℚ) : List MetricPoint :=
  if t ≤ wallClockDurationSec then
    ⟨t, v⟩ :: gpuFillLoop wallClockDurationSec (t + 10) v
  else []
termination_by (⌊wallClockDurationSec - t⌋ + 10).toNat
decreasing_by
  rename_i h
  have h1 : (0:ℚ) ≤ wallClockDurationSec - t := by linarith
  have h2 : (0:ℤ) ≤ ⌊wallClockDurationSec - t⌋ := Int.floor_nonneg.mpr h1
  have h3 : ⌊wallClockDurationSec - (t + 10)⌋ = ⌊wallClockDurationSec - t⌋ - 10 := by
    have h4 : wallClockDurationSec - (t + 10) =
        (wallClockDurationSec - t) - ((10:ℤ) : ℚ) := by push_cast; ring
    rw [h4, Int.floor_sub_int]
  omega

/-- The gpu series when the trace is rejected but yields exactly one bucket:
a constant series across the session, closed at `wallClockDurationSec`. -/
def gpuSinglePointSeries (wallClockDurationSec v : ℚ) : MetricSeries :=
  let pts := gpuFillLoop wallClockDurationSec 0 v
  let pts :=
    match pts.getLast? with
    | some lastP =>
      if lastP.timeSec < wallClockDurationSec then pts ++ [⟨wallClockDurationSec, v⟩] else pts
    | none => pts
  ⟨"GPU Busy", "ms", pts⟩

/-- Descending order on long tasks (`sort((a, b) => b.durationMs - a.durationMs)`). -/
def taskDescLe (a b : LongTaskEntry) : Prop := b.durationMs ≤ a.durationMs

instance : DecidableRel taskDescLe := fun a b => inferInstanceAs (Decidable (b.durationMs ≤ a.durationMs))

/-- `parseTrace` (the claim-relevant part of its returned report): extract
the buckets, choose the source per metric, and assemble the report. The
initial `webVitals` has `tbtMs = 0` with trace-derived long-task counts. -/
def parseTraceReport (events : List TraceEvent) (startedAt stoppedAt : ℚ)
    (fallback : FallbackData) : PerfReport :=
  let acc := extractEvents events startedAt stoppedAt
  let wallClockDurationSec := wallClockDurationMs startedAt stoppedAt / 1000
  let fpsSeries : MetricSeries :=
    if useTraceFps events startedAt stoppedAt then
      ⟨"FPS", "fps", capFps (traceFpsPoints events startedAt stoppedAt)⟩
    else ⟨"FPS", "fps", capFps fallback.fpsSamples⟩
  let cpuSeries : MetricSeries :=
    if useTraceCpu events startedAt stoppedAt then mapToSeries acc.cpuBusyMap "CPU Busy" "ms"
    else ⟨"CPU Busy", "ms", fallbackCpuPoints fallback⟩
  let traceGpuPoints := (mapToSeries acc.gpuBusyMap "GPU Busy" "ms").points
  let gpuSeries : MetricSeries :=
    if useTraceGpu events startedAt stoppedAt then mapToSeries acc.gpuBusyMap "GPU Busy" "ms"
    else
      match traceGpuPoints with
      | [p] => gpuSinglePointSeries wallClockDurationSec p.value
      | _ => ⟨"GPU Busy", "ms", []⟩
  let memorySeries : MetricSeries :=
    if useTraceMemory events startedAt stoppedAt then ⟨"JS Heap", "MB", acc.memoryPoints⟩
    else ⟨"JS Heap", "MB", fallbackMemoryPoints fallback⟩
  let domSeries : MetricSeries :=
    if useTraceDom events startedAt stoppedAt then ⟨"DOM Nodes", "count", acc.domPoints⟩
    else ⟨"DOM Nodes", "count", fallbackDomPoints fallback⟩
  { startedAtMs := startedAt
    stoppedAtMs := stoppedAt
    durationMs := wallClockDurationMs startedAt stoppedAt
    fpsSeries := fpsSeries
    cpuSeries := cpuSeries
    gpuSeries := gpuSeries
    memorySeries := memorySeries
    domNodesSeries := domSeries
    longTasks :=
      { count := acc.longTasks.length
        totalTimeMs := (acc.longTasks.map (·.durationMs)).sum
        topTasks := (acc.longTasks.insertionSort taskDescLe).take 5 }
    webVitals :=
      { tbtMs := 0
        longTaskCount := acc.longTasks.length
        longTaskTotalMs := (acc.longTasks.map (·.durationMs)).sum }
    spikeFrames := [] }

/-- `buildFallbackReport`: the report built purely from polling / in-page
data when trace parsing fails (claim-relevant part). -/
def buildFallbackReport (startedAt stoppedAt : ℚ) (fallback : FallbackData) : PerfReport :=
  let durationMs := max 0 (stoppedAt - startedAt)
  { startedAtMs := startedAt
    stoppedAtMs := stoppedAt
    durationMs := durationMs
    fpsSeries := ⟨"FPS", "fps", fallback.fpsSamples⟩
    cpuSeries := ⟨"CPU Busy", "ms", fallbackCpuPoints fallback⟩
    gpuSeries := ⟨"GPU Busy", "ms", []⟩
    memorySeries := ⟨"JS Heap", "MB", fallbackMemoryPoints fallback⟩
    domNodesSeries := ⟨"DOM Nodes", "count", fallbackDomPoints fallback⟩
    longTasks := { count := 0, totalTimeMs := 0, topTasks := [] }
    webVitals :=
      { tbtMs := (fallback.samples.map fun s => max 0 (s.cpuBusyMs - 50)).sum
        longTaskCount := 0
        longTaskTotalMs := 0 }
    spikeFrames := [] }

/-! ### Web vitals (`deriveWebVitals`, lines 1863-1892) -/

/-- `deriveWebVitals`: TBT from the in-page collector's long tasks, or a
zero-TBT record carrying the trace-derived counts when no snapshot exists. -/
def deriveWebVitals (collector : Option ClientCollector)
    (longTasks : LongTasksSummary) : WebVitals :=
  match collector with
  | none =>
    { tbtMs := 0
      longTaskCount := longTasks.count
      longTaskTotalMs := longTasks.totalTimeMs }
  | some c =>
    { fcpMs := c.fcp
      lcpMs := c.lcp
      cls := some c.cls
      tbtMs := (c.longTasks.map fun t => max 0 (t.duration - 50)).sum
      longTaskCount := c.longTasks.length
      longTaskTotalMs := (c.longTasks.map (·.duration)).sum }

/-! ### Time-range normalization (`normalizeReportTimeRange`, lines 764-827)
and extension (`extendSeriesToFullDuration`, lines 829-862) -/

/-- The per-series body of `normalizeReportTimeRange`: rescale
milliseconds-looking timestamps, clamp into `[0, durationSec]`, re-sort. -/
def normalizeSeriesPoints (durationSec : ℚ) (points : List MetricPoint) : List MetricPoint :=
  match points with
  | [] => []
  | _ :: _ =>
    let maxTime := listMaxQ (points.map (·.timeSec))
    let mightBeMs := maxTime > durationSec * 1.5
    let mapped := points.map fun p =>
      let t := if mightBeMs then p.timeSec / 1000 else p.timeSec
      { p with timeSec := max 0 (min durationSec t) }
    sortByTime mapped

/-- The `while (t < durationSec - 0.5)` forward-extension loop (step 2s). -/
def extendLoop (durationSec t v : ℚ) : List MetricPoint :=
  if t < durationSec - 0.5 then ⟨t, v⟩ :: extendLoop durationSec (t + 2) v else []
termination_by (⌊durationSec - t⌋ + 2).toNat
decreasing_by
  rename_i h
  have h1 : (0:ℚ) ≤ durationSec - t := by
    have : (0.5:ℚ) = 1/2 := by norm_num
    linarith [h, this]
  have h2 : (0:ℤ) ≤ ⌊durationSec - t⌋ := Int.floor_nonneg.mpr h1
  have h3 : ⌊durationSec - (t + 2)⌋ = ⌊durationSec - t⌋ - 2 := by
    have h4 : durationSec - (t + 2) = (durationSec - t) - ((2:ℤ) : ℚ) := by push_cast; ring
    rw [h4, Int.floor_sub_int]
  omega

/-- The per-series body of `extendSeriesToFullDuration`: prepend a copy of
the first value at `t = 0` when the series starts more than 0.5s in, and
append copies of the last value up to `durationSec` when it ends more than
0.5s early. -/
def extendSeriesPoints (durationSec : ℚ) (points : List MetricPoint) : List MetricPoint :=
  match points with
  | [] => []
  | p0 :: _ =>
    let minTime := listMinQ (points.map (·.timeSec))
    let maxTime := listMaxQ (points.map (·.timeSec))
    let pts1 := if minTime > 0.5 then ⟨0, p0.value⟩ :: points else points
    if maxTime ≥ durationSec - 0.5 then sortByTime pts1
    else
      match pts1.getLast? with
      | none => pts1
      | some lastP =>
        let t0 := min (maxTime + 2) durationSec
        sortByTime (pts1 ++ extendLoop durationSec t0 lastP.value ++
          [⟨durationSec, lastP.value⟩])

/-- Apply a point transformation to one series. -/
def mapSeries (f : List MetricPoint → List MetricPoint) (s : MetricSeries) : MetricSeries :=
  { s with points := f s.points }

/-- `extendSeriesToFullDuration`: extend all five series of the report. -/
def extendSeriesToFullDuration (report : PerfReport) : PerfReport :=
  let durationSec := report.durationMs / 1000
  { report with
    fpsSeries := mapSeries (extendSeriesPoints durationSec) report.fpsSeries
    cpuSeries := mapSeries (extendSeriesPoints durationSec) report.cpuSeries
    gpuSeries := mapSeries (extendSeriesPoints durationSec) report.gpuSeries
    memorySeries := mapSeries (extendSeriesPoints durationSec) report.memorySeries
    domNodesSeries := mapSeries (extendSeriesPoints durationSec) report.domNodesSeries }

/-- `normalizeReportTimeRange`: normalize the five series and the spike
frames, then extend every series to the full session span. -/
def normalizeReportTimeRange (report : PerfReport) : PerfReport :=
  let durationSec := report.durationMs / 1000
  let report1 :=
    { report with
      fpsSeries := mapSeries (normalizeSeriesPoints durationSec) report.fpsSeries
      cpuSeries := mapSeries (normalizeSeriesPoints durationSec) report.cpuSeries
      gpuSeries := mapSeries (normalizeSeriesPoints durationSec) report.gpuSeries
      memorySeries := mapSeries (normalizeSeriesPoints durationSec) report.memorySeries
      domNodesSeries := mapSeries (normalizeSeriesPoints durationSec) report.domNodesSeries
      spikeFrames := report.spikeFrames.map fun frame =>
        let t := if frame.timeSec > durationSec * 1.5 then frame.timeSec / 1000 else frame.timeSec
        { frame with timeSec := max 0 (min durationSec t) } }
  extendSeriesToFullDuration report1

/-! ### Session lifecycle (`startRecording` / `stopRecording`) -/

/-- The engine's session slot content needed by the claims (start timestamp
and the accumulating sample sequences). -/
structure Session where
  startedAt : ℚ
  samples : List PerfSample
  fpsSamples : List MetricPoint
deriving Repr, DecidableEq

/-- The errors the engine can surface from start/stop. -/
inductive RecError where
  | alreadyRecording
  | invalidInput
  | noActiveSession
  | drainFailed
  | unlinkFailed
deriving Repr, DecidableEq

/-- The result of the platform `new URL` parser (only the fields the engine
reads: the protocol and the normalized string form). -/
structure UrlParsed where
  protocol : String
  toStr : String
deriving Repr, DecidableEq

/-- `ensureValidUrl`: parse with the (platform-provided) URL parser and
require an http/https protocol. -/
def ensureValidUrl (parseUrl : String → Option UrlParsed) (value : String) :
    Except RecError String :=
  match parseUrl value with
  | none => Except.error RecError.invalidInput
  | some parsed =>
    if parsed.protocol ∈ ["http:", "https:"] then Except.ok parsed.toStr
    else Except.error RecError.invalidInput

/-- The status record `startRecording` returns. -/
structure StartStatus where
  status : String
  url : String
deriving Repr, DecidableEq

/-- `startRecording` as a transition on the global session slot: fail with
`alreadyRecording` when a session is active (checked before URL
validation), fail with `invalidInput` on a bad URL, otherwise activate a
fresh session. Returns the new slot content and the call's outcome. -/
def startRecording (parseUrl : String → Option UrlParsed) (active : Option Session)
    (url : String) (nowMs : ℚ) : Option Session × Except RecError StartStatus :=
  match active with
  | some s => (some s, Except.error RecError.alreadyRecording)
  | none =>
    match ensureValidUrl parseUrl url with
    | Except.error e => (none, Except.error e)
    | Except.ok safeUrl =>
      (some { startedAt := nowMs, samples := [], fpsSamples := [] },
        Except.ok { status := "recording", url := safeUrl })

/-- The environment `stopRecording` runs against: the stop timestamp, the
outcomes of the drain steps (final in-page fps read, collector snapshot),
whether each step of the `try { tracing.stop; Tracing.end; IO.read } /
finally { close }` block succeeds, the decoded trace events, whether
`parseTrace` throws, and whether the final trace-file unlink succeeds. -/
structure StopEnv where
  stopRequestedAt : ℚ
  pageFpsRead : Option (List MetricPoint)
  collector : Option ClientCollector
  tracingStopOk : Bool
  endTraceOk : Bool
  readStreamOk : Bool
  traceEvents : List TraceEvent
  parseTraceThrows : Bool
  unlinkTraceOk : Bool
deriving Repr, DecidableEq

/-- The observable outcome of one `stopRecording` call: the session slot
afterwards, the returned report or propagated error, and whether browser /
context teardown was attempted. -/
structure StopOutcome where
  newActive : Option Session
  result : Except RecError PerfReport
  teardownAttempted : Bool
deriving Repr

/-- `stopRecording`: fail with `noActiveSession` when the slot is empty;
otherwise clear the slot, swallow a failed final in-page fps read, take
the collector snapshot (its reader never throws), run the tracing-drain
`try/finally` (teardown runs in `finally`, but a drain failure
propagates), build the report (`parseTrace`, falling back to
`buildFallbackReport` when it throws), attach web vitals, normalize, and
delete the trace file (an unlink failure also propagates). -/
def stopRecording (active : Option Session) (env : StopEnv) : StopOutcome :=
  match active with
  | none =>
    { newActive := none, result := Except.error RecError.noActiveSession,
      teardownAttempted := false }
  | some s =>
    let fpsSamples := s.fpsSamples ++ (env.pageFpsRead.getD [])
    let clientCollector := env.collector
    if env.tracingStopOk ∧ env.endTraceOk ∧ env.readStreamOk then
      let stoppedAt := env.stopRequestedAt
      let fallback : FallbackData := ⟨s.samples, fpsSamples⟩
      let report0 :=
        if env.parseTraceThrows then buildFallbackReport s.startedAt stoppedAt fallback
        else parseTraceReport env.traceEvents s.startedAt stoppedAt fallback
      let report1 := { report0 with webVitals := deriveWebVitals clientCollector report0.longTasks }
      let report2 := normalizeReportTimeRange report1
      if env.unlinkTraceOk then
        { newActive := none, result := Except.ok report2, teardownAttempted := true }
      else
        { newActive := none, result := Except.error RecError.unlinkFailed,
          teardownAttempted := true }
    else
      { newActive := none, result := Except.error RecError.drainFailed,
        teardownAttempted := true }

/-! ### Derived classifier used to characterize the long-task accumulator -/

/-- The long task recorded for one event by the extraction loop, if any:
the `name === "RunTask" && dur / 1000 > 50` guard of `parseTrace`. -/
def longTaskOf (events : List TraceEvent) (startedAt stoppedAt : ℚ)
    (e : TraceEvent) : Option LongTaskEntry :=
  if e.name.getD "" = "RunTask" ∧ e.dur.getD 0 / 1000 > 50 then
    some ⟨e.name.getD "", e.dur.getD 0 / 1000,
      tsToSec events startedAt stoppedAt (e.ts.getD 0)⟩
  else none

/-! ### Concrete fixtures used by the counterexamples and witnesses -/

/-- A 10-second session trace: two frame events spanning 9,000,000 µs and a
single `UpdateCounters` memory reading near the end of the session. -/
def evMemorySingle : List TraceEvent :=
  [{ name := some "DrawFrame", ts := some 0 },
   { name := some "DrawFrame", ts := some 9000000 },
   { name := some "UpdateCounters", ts := some 8500000,
     argsData := some { jsHeapSizeUsed := some 104857600 } }]

/-- Fallback data with one polling sample carrying a heap reading. -/
def fbMemory : FallbackData :=
  ⟨[{ timeSec := 1, cpuBusyMs := 5, scriptMs := 1, layoutMs := 1,
      jsHeapMb := some 50, nodes := some 200 }], []⟩

/-- Two frame events spanning 2,000,000 native units. -/
def evSpan2M : List TraceEvent :=
  [{ name := some "DrawFrame", ts := some 0 },
   { name := some "DrawFrame", ts := some 2000000 }]

/-- Two frame events spanning 2,000 native units. -/
def evSpan2K : List TraceEvent :=
  [{ name := some "DrawFrame", ts := some 0 },
   { name := some "DrawFrame", ts := some 2000 }]

/-- A `RunTask` event that is not Complete-phase (`ph = "B"`) yet lasts 60ms. -/
def evRunTaskPhaseB : TraceEvent :=
  { name := some "RunTask", ph := some "B", ts := some 0, dur := some 60000 }

/-- A Complete-phase `RunTask` event lasting 60ms. -/
def evRunTaskX60e : TraceEvent :=
  { name := some "RunTask", ph := some "X", ts := some 0, dur := some 60000 }

/-- A Complete-phase `RunTask` event lasting 40ms. -/
def evRunTaskX40e : TraceEvent :=
  { name := some "RunTask", ph := some "X", ts := some 0, dur := some 40000 }

/-- A freshly started session with no samples yet. -/
def sessionZero : Session := ⟨0, [], []⟩

/-- A stop environment whose trace-stream read fails (everything else fine). -/
def envStreamFail : StopEnv :=
  ⟨1000, none, none, true, true, false, [], false, true⟩

/-- A stop environment in which every drain step succeeds but `parseTrace`
throws, so the fallback report is used. -/
def envParseThrows : StopEnv :=
  ⟨1000, none, none, true, true, true, [], true, true⟩

/-- Fallback data with a single in-page fps sample far above the cap. -/
def fbFpsHigh : FallbackData := ⟨[], [⟨1, 300⟩]⟩

/-- A platform URL parser that reports an `ftp:` URL. -/
def parseFtp : String → Option UrlParsed := fun s => some ⟨"ftp:", s⟩

/-- A 2-second report whose only series has one point at `t = 3`. -/
def repFix : PerfReport :=
  { startedAtMs := 0, stoppedAtMs := 2000, durationMs := 2000,
    fpsSeries := ⟨"FPS", "fps", [⟨3, 5⟩]⟩,
    cpuSeries := ⟨"CPU Busy", "ms", []⟩,
    gpuSeries := ⟨"GPU Busy", "ms", []⟩,
    memorySeries := ⟨"JS Heap", "MB", []⟩,
    domNodesSeries := ⟨"DOM Nodes", "count", []⟩,
    longTasks := ⟨0, 0, []⟩,
    webVitals := { tbtMs := 0, longTaskCount := 0, longTaskTotalMs := 0 },
    spikeFrames := [] }

/-- Whether an `Except` result carries a value. -/
def exceptIsOk : Except RecError PerfReport → Bool
  | Except.ok _ => true
  | Except.error _ => false

/-! ## Helper lemmas -/

theorem foldl_max_init (l : List ℚ) (a : ℚ) : a ≤ l.foldl max a := by
  induction l generalizing a with
  | nil => simp
  | cons b t ih => exact le_trans (le_max_left a b) (ih (max a b))

theorem foldl_max_mem (l : List ℚ) (x : ℚ) : ∀ a, x ∈ l → x ≤ l.foldl max a := by
  induction l with
  | nil => intro a hx; cases hx
  | cons b t ih =>
    intro a hx
    rcases List.mem_cons.mp hx with h | h
    · subst h; exact le_trans (le_max_right a x) (foldl_max_init t _)
    · exact ih (max a b) h

theorem foldl_min_init (l : List ℚ) (a : ℚ) : l.foldl min a ≤ a := by
  induction l generalizing a with
  | nil => simp
  | cons b t ih => exact le_trans (ih (min a b)) (min_le_left a b)

theorem foldl_min_mem (l : List ℚ) (x : ℚ) : ∀ a, x ∈ l → l.foldl min a ≤ x := by
  induction l with
  | nil => intro a hx; cases hx
  | cons b t ih =>
    intro a hx
    rcases List.mem_cons.mp hx with h | h
    · subst h; exact le_trans (foldl_min_init t _) (min_le_right a x)
    · exact ih (min a b) h

theorem le_listMaxQ (l : List ℚ) (x : ℚ) (hx : x ∈ l) : x ≤ listMaxQ l := by
  cases l with
  | nil => cases hx
  | cons b t =>
    rcases List.mem_cons.mp hx with h | h
    · subst h; exact foldl_max_init t x
    · exact foldl_max_mem t x b h

theorem listMinQ_le (l : List ℚ) (x : ℚ) (hx : x ∈ l) : listMinQ l ≤ x := by
  cases l with
  | nil => cases hx
  | cons b t =>
    rcases List.mem_cons.mp hx with h | h
    · subst h; exact foldl_min_init t x
    · exact foldl_min_mem t x b h

theorem mem_sortByTime (l : List MetricPoint) (p : MetricPoint) :
    p ∈ sortByTime l ↔ p ∈ l :=
  (List.perm_insertionSort ptLe l).mem_iff

theorem sortByTime_pairwise (l : List MetricPoint) : (sortByTime l).Pairwise ptLe :=
  List.sorted_insertionSort ptLe l

theorem capFps_bounds (l : List MetricPoint) (p : MetricPoint) (hp : p ∈ capFps l) :
    0 ≤ p.value ∧ p.value ≤ 120 := by
  rcases List.mem_map.mp hp with ⟨q, _, rfl⟩
  exact ⟨le_min (by norm_num) (le_max_left 0 q.value), min_le_left _ _⟩

theorem extendLoop_mem (durationSec t v : ℚ) :
    ∀ p ∈ extendLoop durationSec t v, t ≤ p.timeSec ∧ p.timeSec < durationSec - 0.5 := by
  induction t, v using extendLoop.induct durationSec with
  | case1 t v hlt ih =>
    intro p hp
    rw [extendLoop, if_pos hlt] at hp
    rcases List.mem_cons.mp hp with h | h
    · subst h; exact ⟨le_refl _, hlt⟩
    · have h2 := ih p h
      exact ⟨by linarith [h2.1], h2.2⟩
  | case2 t v hge =>
    intro p hp
    rw [extendLoop, if_neg hge] at hp
    cases hp

end PerfTrace

namespace PerfTrace

/-! ## Claim C7 -/

/-- Claim C7 (confirmed): `webVitals.tbtMs` is the sum over the in-page
collector's long tasks of `max(0, duration - 50ms)` — durations
`[70, 120, 30]` yield 90ms — and with no collector snapshot the record is
`tbtMs = 0` with `longTaskCount` / `longTaskTotalMs` taken from the
trace-derived long-task summary (which `parseTrace` fills from the
extracted long-task list); the final normalization pass leaves
`webVitals` untouched. -/
theorem deriveWebVitals_tbt_spec :
    (∀ (c : ClientCollector) (lt : LongTasksSummary),
      (deriveWebVitals (some c) lt).tbtMs =
        (c.longTasks.map fun t => max 0 (t.duration - 50)).sum) ∧
    (∀ lt : LongTasksSummary,
      deriveWebVitals none lt =
        { fcpMs := none, lcpMs := none, cls := none, tbtMs := 0,
          longTaskCount := lt.count, longTaskTotalMs := lt.totalTimeMs }) ∧
    (deriveWebVitals
        (some ⟨[⟨0, 70⟩, ⟨1, 120⟩, ⟨2, 30⟩], 0, none, none⟩) ⟨0, 0, []⟩).tbtMs = 90 ∧
    (∀ events startedAt stoppedAt fallback,
      (parseTraceReport events startedAt stoppedAt fallback).longTasks.count =
          (extractEvents events startedAt stoppedAt).longTasks.length ∧
        (parseTraceReport events startedAt stoppedAt fallback).longTasks.totalTimeMs =
          ((extractEvents events startedAt stoppedAt).longTasks.map (·.durationMs)).sum) ∧
    (∀ r : PerfReport, (normalizeReportTimeRange r).webVitals = r.webVitals) := by
  refine ⟨fun c lt => rfl, fun lt => rfl, ?_, fun e s t f => ⟨rfl, rfl⟩, fun r => rfl⟩
  norm_num [deriveWebVitals]

/-! ## Claim C8 -/

/-- Claim C8 (confirmed): the report's `durationMs` is the wall-clock
difference `stoppedAt - startedAt` in both the trace-parsing path and the
no-trace fallback path, independent of the trace's own timestamp span,
and the final normalization pass preserves it. -/
theorem report_duration_is_wall_clock (events : List TraceEvent)
    (fallback : FallbackData) (startedAt stoppedAt : ℚ)
    (h : startedAt ≤ stoppedAt) :
    (parseTraceReport events startedAt stoppedAt fallback).durationMs =
        stoppedAt - startedAt ∧
    (buildFallbackReport startedAt stoppedAt fallback).durationMs =
        stoppedAt - startedAt ∧
    (∀ r : PerfReport, (normalizeReportTimeRange r).durationMs = r.durationMs) := by
  have hw : wallClockDurationMs startedAt stoppedAt = stoppedAt - startedAt :=
    max_eq_right (sub_nonneg.mpr h)
  refine ⟨?_, ?_, fun r => rfl⟩
  · show wallClockDurationMs startedAt stoppedAt = stoppedAt - startedAt
    exact hw
  · show max 0 (stoppedAt - startedAt) = stoppedAt - startedAt
    exact max_eq_right (sub_nonneg.mpr h)

/-- Witness for C8, at a session lasting 10s whose trace span (9,000,000
native units) differs from the wall clock. -/
theorem report_duration_is_wall_clock_witness :
    (0:ℚ) ≤ 10000 ∧
    (parseTraceReport evMemorySingle 0 10000 fbMemory).durationMs = 10000 - 0 := by
  refine ⟨by norm_num, ?_⟩
  exact (report_duration_is_wall_clock evMemorySingle fbMemory 0 10000 (by norm_num)).1

/-! ## Claim C9 -/

/-- Claim C9 (confirmed): starting while a session is active fails with the
already-recording error and leaves the slot unchanged; stopping with no
active session fails with the no-active-session error; starting with a
URL that does not parse or whose scheme is not http/https fails with the
invalid-input error without activating a session. -/
theorem session_state_machine_errors (parseUrl : String → Option UrlParsed)
    (s : Session) (url : String) (nowMs : ℚ) (env : StopEnv)
    (hbad : ∀ u, parseUrl url = some u →
      u.protocol ∉ (["http:", "https:"] : List String)) :
    startRecording parseUrl (some s) url nowMs =
        (some s, Except.error RecError.alreadyRecording) ∧
    ((stopRecording none env).result = Except.error RecError.noActiveSession ∧
      (stopRecording none env).newActive = none) ∧
    startRecording parseUrl none url nowMs =
        (none, Except.error RecError.invalidInput) := by
  refine ⟨rfl, ⟨rfl, rfl⟩, ?_⟩
  simp only [startRecording, ensureValidUrl]
  cases hu : parseUrl url with
  | none => rfl
  | some u =>
    have hnp := hbad u hu
    simp [hnp]

/-- Witness for C9 at a concrete `ftp:` URL parser and a fresh session. -/
theorem session_state_machine_errors_witness :
    startRecording parseFtp (some sessionZero) "ftp://example.com" 5 =
        (some sessionZero, Except.error RecError.alreadyRecording) ∧
    ((stopRecording none envParseThrows).result =
        Except.error RecError.noActiveSession ∧
      (stopRecording none envParseThrows).newActive = none) ∧
    startRecording parseFtp none "ftp://example.com" 5 =
        (none, Except.error RecError.invalidInput) := by
  refine session_state_machine_errors parseFtp sessionZero "ftp://example.com" 5
    envParseThrows ?_
  intro u hu
  rw [parseFtp] at hu
  cases hu
  decide

/-! ## Claim C1 -/

/-- Counterexample to claim C1: with a successfully started session, a
failure of the trace-stream read makes `stopRecording` propagate an error
to the caller instead of returning a report (teardown still runs in the
`finally` block). -/
theorem stop_error_on_stream_failure :
    (stopRecording (some sessionZero) envStreamFail).result =
        Except.error RecError.drainFailed ∧
    (stopRecording (some sessionZero) envStreamFail).teardownAttempted = true := by
  exact ⟨rfl, rfl⟩

/-- Claim C1 (amended): browser/context teardown is attempted on every stop
of a started session, whatever fails; and provided the tracing-stop,
trace-end, trace-stream-read and trace-file-unlink steps succeed,
`stopRecording` returns a report — failures of the final in-page reads
are swallowed and a `parseTrace` failure is converted into the fallback
report (both are unconstrained here). -/
theorem stop_teardown_and_report (s : Session) (env : StopEnv)
    (h1 : env.tracingStopOk = true) (h2 : env.endTraceOk = true)
    (h3 : env.readStreamOk = true) (h4 : env.unlinkTraceOk = true) :
    (∀ env2 : StopEnv, (stopRecording (some s) env2).teardownAttempted = true) ∧
    exceptIsOk (stopRecording (some s) env).result = true := by
  constructor
  · intro env2
    simp only [stopRecording]
    split
    · split <;> rfl
    · rfl
  · simp only [stopRecording]
    rw [if_pos (by simp [h1, h2, h3]), if_pos (by simp [h4])]
    rfl

/-- Witness for the amended C1: a fresh session stopped in an environment
where every drain step succeeds but `parseTrace` throws. -/
theorem stop_teardown_and_report_witness :
    (∀ env2 : StopEnv,
      (stopRecording (some sessionZero) env2).teardownAttempted = true) ∧
    exceptIsOk (stopRecording (some sessionZero) envParseThrows).result = true :=
  stop_teardown_and_report sessionZero envParseThrows rfl rfl rfl rfl

/-! ## Claim C6 -/

theorem frameStep_longTasks (sec : Int) (name : String) (acc : ExtractAcc) :
    (frameStep sec name acc).longTasks = acc.longTasks := by
  simp only [frameStep]
  split <;> rfl

theorem busyStep_longTasks (sec : Int) (name cat : String) (ph : Option String)
    (dur : ℚ) (acc : ExtractAcc) :
    (busyStep sec name cat ph dur acc).longTasks = acc.longTasks := by
  simp only [busyStep]
  split_ifs <;> rfl

theorem countersStep_longTasks (timeSec : ℚ) (name : String)
    (argsData : Option CounterData) (acc : ExtractAcc) :
    (countersStep timeSec name argsData acc).longTasks = acc.longTasks := by
  simp only [countersStep]
  split_ifs
  · split <;> split <;> rfl
  · rfl

theorem longTaskStep_longTasks (startSec : ℚ) (name : String) (dur : ℚ)
    (acc : ExtractAcc) :
    (longTaskStep startSec name dur acc).longTasks =
      acc.longTasks ++
        (if name = "RunTask" ∧ dur / 1000 > 50 then
          [(⟨name, dur / 1000, startSec⟩ : LongTaskEntry)] else []) := by
  simp only [longTaskStep]
  split_ifs <;> simp

theorem extractStep_longTasks (events : List TraceEvent) (startedAt stoppedAt : ℚ)
    (acc : ExtractAcc) (e : TraceEvent) :
    (extractStep events startedAt stoppedAt acc e).longTasks =
      acc.longTasks ++ (longTaskOf events startedAt stoppedAt e).toList := by
  simp only [extractStep, countersStep_longTasks, longTaskStep_longTasks,
    busyStep_longTasks, frameStep_longTasks, longTaskOf]
  split_ifs <;> simp

theorem extractEvents_longTasks_aux (events : List TraceEvent) (startedAt stoppedAt : ℚ)
    (l : List TraceEvent) :
    ∀ acc : ExtractAcc,
      (l.foldl (extractStep events startedAt stoppedAt) acc).longTasks =
        acc.longTasks ++ l.filterMap (longTaskOf events startedAt stoppedAt) := by
  induction l with
  | nil => intro acc; simp
  | cons e rest ih =>
    intro acc
    rw [List.foldl_cons, ih, extractStep_longTasks, List.filterMap_cons]
    cases h : longTaskOf events startedAt stoppedAt e <;> simp [h]

theorem extractEvents_longTasks (events : List TraceEvent) (startedAt stoppedAt : ℚ) :
    (extractEvents events startedAt stoppedAt).longTasks =
      events.filterMap (longTaskOf events startedAt stoppedAt) := by
  have h := extractEvents_longTasks_aux events startedAt stoppedAt events {}
  simpa [extractEvents] using h

theorem tsToSec_single_ts0 (e : TraceEvent) (he : e.ts = some 0) :
    tsToSec [e] 0 2000 0 = 0 := by
  have htss : eventTss [e] = [0] := by simp [eventTss, he]
  have hspan : rawTraceSpan [e] = 0 := by
    simp [rawTraceSpan, traceStartTs, traceEndTs, htss, listMinQ, listMaxQ]
  have hcond : ¬ (traceSpanTooLarge [e] 0 2000 ∧ rawTraceSpan [e] > 0) := by
    intro hc
    rw [hspan] at hc
    exact absurd hc.2 (by norm_num)
  have hstart : traceStartTs [e] = 0 := by simp [traceStartTs, htss, listMinQ]
  have hdiv : traceTsToSec [e] = 1000 := by
    unfold traceTsToSec
    rw [if_neg]
    unfold traceTsIsMicroseconds
    rw [hspan]
    norm_num
  unfold tsToSec
  rw [if_neg hcond, hstart, hdiv]
  norm_num [wallClockDurationMs]

/-- Counterexample to claim C6: a `RunTask` event of phase `"B"` (not the
Complete phase `"X"`) with 60ms duration is still recorded as a long
task, so being a Complete-phase event is not necessary for recording. -/
theorem longTask_nonComplete_recorded :
    (extractEvents [evRunTaskPhaseB] 0 2000).longTasks =
        [⟨"RunTask", 60, 0⟩] ∧
    evRunTaskPhaseB.ph = some "B" ∧ some "B" ≠ some "X" := by
  refine ⟨?_, rfl, by decide⟩
  have hts : tsToSec [evRunTaskPhaseB] 0 2000 0 = 0 :=
    tsToSec_single_ts0 evRunTaskPhaseB rfl
  have hLT : longTaskOf [evRunTaskPhaseB] 0 2000 evRunTaskPhaseB =
      some ⟨"RunTask", 60, 0⟩ := by
    simp only [longTaskOf, evRunTaskPhaseB, Option.getD_some]
    rw [if_pos (by norm_num)]
    have h60 : (60000 : ℚ) / 1000 = 60 := by norm_num
    simp only [evRunTaskPhaseB] at hts
    rw [h60, hts]
  rw [extractEvents_longTasks]
  simp [hLT]

/-- Claim C6 (amended): an event is recorded as a long task if and only if
it is named `"RunTask"` and its duration exceeds 50ms (`dur/1000 > 50`),
regardless of its phase; each recorded task carries the name, the
duration in ms, and the clamped start offset in seconds. In particular a
Complete-phase `RunTask` of 60ms is recorded and one of 40ms is not. -/
theorem longTask_recorded_iff :
    (∀ (events : List TraceEvent) (startedAt stoppedAt : ℚ),
      (extractEvents events startedAt stoppedAt).longTasks =
        events.filterMap (longTaskOf events startedAt stoppedAt)) ∧
    (∀ (events : List TraceEvent) (startedAt stoppedAt : ℚ) (e : TraceEvent),
      longTaskOf events startedAt stoppedAt e =
        (if e.name.getD "" = "RunTask" ∧ e.dur.getD 0 / 1000 > 50 then
          some ⟨e.name.getD "", e.dur.getD 0 / 1000,
            tsToSec events startedAt stoppedAt (e.ts.getD 0)⟩
        else none)) ∧
    (extractEvents [evRunTaskX60e] 0 2000).longTasks = [⟨"RunTask", 60, 0⟩] ∧
    (extractEvents [evRunTaskX40e] 0 2000).longTasks = [] := by
  refine ⟨extractEvents_longTasks, fun e s t ev => rfl, ?_, ?_⟩
  · have hts : tsToSec [evRunTaskX60e] 0 2000 0 = 0 :=
      tsToSec_single_ts0 evRunTaskX60e rfl
    have hLT : longTaskOf [evRunTaskX60e] 0 2000 evRunTaskX60e =
        some ⟨"RunTask", 60, 0⟩ := by
      simp only [longTaskOf, evRunTaskX60e, Option.getD_some]
      rw [if_pos (by norm_num)]
      have h60 : (60000 : ℚ) / 1000 = 60 := by norm_num
      simp only [evRunTaskX60e] at hts
      rw [h60, hts]
    rw [extractEvents_longTasks]
    simp [hLT]
  · have hLT : longTaskOf [evRunTaskX40e] 0 2000 evRunTaskX40e = none := by
      simp only [longTaskOf, evRunTaskX40e, Option.getD_some]
      rw [if_neg]
      intro hc
      have h40 := hc.2
      norm_num at h40
    rw [extractEvents_longTasks]
    simp [hLT]

/-! ## Claim C10 -/

/-- Claim C10 (confirmed): in the trace-parsing path, every point of the
returned fps series has its value clamped into `[0, 120]`, whether the
series came from the trace buckets or from the in-page fallback samples. -/
theorem fps_values_capped (events : List TraceEvent) (startedAt stoppedAt : ℚ)
    (fallback : FallbackData) (p : MetricPoint)
    (hp : p ∈ (parseTraceReport events startedAt stoppedAt fallback).fpsSeries.points) :
    0 ≤ p.value ∧ p.value ≤ 120 := by
  by_cases h : useTraceFps events startedAt stoppedAt
  · have he : (parseTraceReport events startedAt stoppedAt fallback).fpsSeries.points =
        capFps (traceFpsPoints events startedAt stoppedAt) := by
      simp [parseTraceReport, h]
    rw [he] at hp
    exact capFps_bounds _ _ hp
  · have he : (parseTraceReport events startedAt stoppedAt fallback).fpsSeries.points =
        capFps fallback.fpsSamples := by
      simp [parseTraceReport, h]
    rw [he] at hp
    exact capFps_bounds _ _ hp

/-- Witness for C10: an in-page fps sample of 300 shows up capped at 120. -/
theorem fps_values_capped_witness :
    (⟨1, 120⟩ : MetricPoint) ∈ (parseTraceReport [] 0 1000 fbFpsHigh).fpsSeries.points ∧
    (0 ≤ (⟨1, (120:ℚ)⟩ : MetricPoint).value ∧
      (⟨1, (120:ℚ)⟩ : MetricPoint).value ≤ 120) := by
  have hno : ¬ useTraceFps [] 0 1000 := by
    intro hcon
    have h0 := hcon.1.2.2
    norm_num [traceDurationMs, traceStartTs, traceEndTs, eventTss, listMinQ,
      listMaxQ] at h0
  have hmem : (⟨1, 120⟩ : MetricPoint) ∈
      (parseTraceReport [] 0 1000 fbFpsHigh).fpsSeries.points := by
    simp only [parseTraceReport, if_neg hno]
    norm_num [capFps, fbFpsHigh]
  exact ⟨hmem, fps_values_capped [] 0 1000 fbFpsHigh _ hmem⟩

/-! ## Claim C5 -/

theorem evSpan2M_startTs : traceStartTs evSpan2M = 0 := by
  norm_num [traceStartTs, eventTss, evSpan2M, listMinQ, List.filterMap_cons,
    List.filterMap_nil, min_def]

theorem evSpan2M_endTs : traceEndTs evSpan2M = 2000000 := by
  norm_num [traceEndTs, eventTss, evSpan2M, listMaxQ, List.filterMap_cons,
    List.filterMap_nil, max_def]

theorem evSpan2M_span : rawTraceSpan evSpan2M = 2000000 := by
  rw [rawTraceSpan, evSpan2M_startTs, evSpan2M_endTs]
  norm_num

theorem evSpan2M_micro : traceTsIsMicroseconds evSpan2M := by
  unfold traceTsIsMicroseconds
  rw [evSpan2M_span]
  norm_num

theorem evSpan2M_div : traceTsToSec evSpan2M = 1000000 := by
  unfold traceTsToSec
  rw [if_pos evSpan2M_micro]

theorem evSpan2M_durMs : traceDurationMs evSpan2M = 2000 := by
  unfold traceDurationMs
  rw [if_pos (by rw [evSpan2M_startTs, evSpan2M_endTs]; norm_num :
      traceStartTs evSpan2M < traceEndTs evSpan2M),
    if_pos evSpan2M_micro, evSpan2M_span]
  norm_num

theorem evSpan2M_notTooLarge (startedAt stoppedAt : ℚ) :
    ¬ traceSpanTooLarge evSpan2M startedAt stoppedAt := by
  intro hc
  have h2 := hc.2
  rw [evSpan2M_durMs] at h2
  norm_num at h2

theorem evSpan2K_span : rawTraceSpan evSpan2K = 2000 := by
  norm_num [rawTraceSpan, traceStartTs, traceEndTs, eventTss, evSpan2K,
    listMinQ, listMaxQ, List.filterMap_cons, List.filterMap_nil, min_def, max_def]

theorem evSpan2K_div : traceTsToSec evSpan2K = 1000 := by
  unfold traceTsToSec
  rw [if_neg]
  unfold traceTsIsMicroseconds
  rw [evSpan2K_span]
  norm_num

/-- Counterexample to claim C5: with a wall clock of 1s and a trace span of
2,000,000 µs, the frame event at the end of the trace lands in bucket 1
(the clamped offset), not in bucket `floor((ts - startTs)/divisor) = 2`
as the claim's formula states. -/
theorem bucket_clamped_counterexample :
    (extractEvents evSpan2M 0 1000).fpsMap = [(0, 1), (1, 1)] ∧
    ⌊((2000000:ℚ) - traceStartTs evSpan2M) / traceTsToSec evSpan2M⌋ = 2 ∧
    ∀ v : ℚ, ((2:ℤ), v) ∉ (extractEvents evSpan2M 0 1000).fpsMap := by
  have hcond : ¬ (traceSpanTooLarge evSpan2M 0 1000 ∧ rawTraceSpan evSpan2M > 0) :=
    fun hc => evSpan2M_notTooLarge 0 1000 hc.1
  have hwall : wallClockDurationMs 0 1000 = 1000 := by
    norm_num [wallClockDurationMs]
  have hts0 : tsToSec evSpan2M 0 1000 0 = 0 := by
    simp only [tsToSec]
    rw [if_neg hcond, hwall, evSpan2M_startTs, evSpan2M_div]
    rw [min_def, max_def]
    norm_num
  have hts2 : tsToSec evSpan2M 0 1000 2000000 = 1 := by
    simp only [tsToSec]
    rw [if_neg hcond, hwall, evSpan2M_startTs, evSpan2M_div]
    rw [min_def, max_def]
    norm_num
  have hb0 : bucketSecond evSpan2M 0 1000 0 = 0 := by
    unfold bucketSecond
    rw [hts0]
    norm_num
  have hb2 : bucketSecond evSpan2M 0 1000 2000000 = 1 := by
    unfold bucketSecond
    rw [hts2]
    norm_num
  have hE : extractEvents evSpan2M 0 1000 =
      extractStep evSpan2M 0 1000
        (extractStep evSpan2M 0 1000 {} { name := some "DrawFrame", ts := some 0 })
        { name := some "DrawFrame", ts := some 2000000 } := rfl
  have hs1 : extractStep evSpan2M 0 1000 {} { name := some "DrawFrame", ts := some 0 } =
      { fpsMap := [(0, 1)] } := by
    simp [extractStep, frameStep, busyStep, longTaskStep, countersStep,
      FRAME_EVENT_NAMES, bucketAdd, hb0]
  have hs2 : extractStep evSpan2M 0 1000 { fpsMap := [(0, 1)] }
      { name := some "DrawFrame", ts := some 2000000 } =
      { fpsMap := [(0, 1), (1, 1)] } := by
    simp [extractStep, frameStep, busyStep, longTaskStep, countersStep,
      FRAME_EVENT_NAMES, bucketAdd, hb2]
  have hmap : (extractEvents evSpan2M 0 1000).fpsMap = [(0, 1), (1, 1)] := by
    rw [hE, hs1, hs2]
  refine ⟨hmap, ?_, ?_⟩
  · rw [evSpan2M_startTs, evSpan2M_div]
    norm_num
  · intro v hv
    rw [hmap] at hv
    simp at hv

/-- Claim C5 (amended): the unit divisor is inferred once per trace — a
span above one million native units means microseconds (divisor
1,000,000), otherwise milliseconds (divisor 1,000); a span of 2,000,000
units classifies as microseconds and one of 2,000 units as milliseconds;
and (when the trace span is not disproportionate) per-second bucketing
uses the floor of the offset `(ts - startTs)/divisor` clamped into
`[0, wallClockDurationSec]`. -/
theorem bucket_unit_inference (events : List TraceEvent) (startedAt stoppedAt ts : ℚ)
    (h : ¬ traceSpanTooLarge events startedAt stoppedAt) :
    bucketSecond events startedAt stoppedAt ts =
      ⌊max 0 (min (wallClockDurationMs startedAt stoppedAt / 1000)
        ((ts - traceStartTs events) / traceTsToSec events))⌋ ∧
    (rawTraceSpan events > 1000000 → traceTsToSec events = 1000000) ∧
    (¬ rawTraceSpan events > 1000000 → traceTsToSec events = 1000) ∧
    rawTraceSpan evSpan2M = 2000000 ∧ traceTsToSec evSpan2M = 1000000 ∧
    rawTraceSpan evSpan2K = 2000 ∧ traceTsToSec evSpan2K = 1000 := by
  refine ⟨?_, ?_, ?_, evSpan2M_span, evSpan2M_div, evSpan2K_span, evSpan2K_div⟩
  · simp only [bucketSecond, tsToSec]
    rw [if_neg (fun hc => h hc.1)]
  · intro hgt
    unfold traceTsToSec
    exact if_pos (show traceTsIsMicroseconds events from hgt)
  · intro hle
    unfold traceTsToSec
    exact if_neg (show ¬ traceTsIsMicroseconds events from hle)

/-- Witness for the amended C5, at the 2,000,000-unit trace over a 2-second
wall clock (not disproportionate). -/
theorem bucket_unit_inference_witness :
    ¬ traceSpanTooLarge evSpan2M 0 2000 ∧
    bucketSecond evSpan2M 0 2000 1500000 =
      ⌊max 0 (min (wallClockDurationMs 0 2000 / 1000)
        ((1500000 - traceStartTs evSpan2M) / traceTsToSec evSpan2M))⌋ :=
  ⟨evSpan2M_notTooLarge 0 2000,
    (bucket_unit_inference evSpan2M 0 2000 1500000 (evSpan2M_notTooLarge 0 2000)).1⟩

/-! ## Claims C3 and C4: normalization / extension invariants -/

theorem normalizeSeriesPoints_sorted (d : ℚ) (l : List MetricPoint) :
    (normalizeSeriesPoints d l).Pairwise ptLe := by
  cases l with
  | nil => simp [normalizeSeriesPoints]
  | cons p0 rest =>
    simp only [normalizeSeriesPoints]
    exact sortByTime_pairwise _

theorem normalizeSeriesPoints_bounds (d : ℚ) (hd : 0 ≤ d) (l : List MetricPoint) :
    ∀ p ∈ normalizeSeriesPoints d l, 0 ≤ p.timeSec ∧ p.timeSec ≤ d := by
  cases l with
  | nil => intro p hp; simp [normalizeSeriesPoints] at hp
  | cons p0 rest =>
    intro p hp
    simp only [normalizeSeriesPoints] at hp
    rw [mem_sortByTime] at hp
    rcases List.mem_map.mp hp with ⟨q, _, rfl⟩
    exact ⟨le_max_left 0 _, max_le hd (min_le_left d _)⟩

theorem extendSeriesPoints_sorted (d : ℚ) (l : List MetricPoint) :
    (extendSeriesPoints d l).Pairwise ptLe := by
  cases l with
  | nil => simp [extendSeriesPoints]
  | cons p0 rest =>
    simp only [extendSeriesPoints]
    split
    · exact sortByTime_pairwise _
    · split
      · rename_i hnone
        exfalso
        rw [List.getLast?_eq_none_iff] at hnone
        revert hnone
        split <;> simp
      · exact sortByTime_pairwise _

theorem extendSeriesPoints_bounds (d : ℚ) (hd : 0 ≤ d) (l : List MetricPoint)
    (hb : ∀ p ∈ l, 0 ≤ p.timeSec ∧ p.timeSec ≤ d) :
    ∀ p ∈ extendSeriesPoints d l, 0 ≤ p.timeSec ∧ p.timeSec ≤ d := by
  cases l with
  | nil => intro p hp; simp [extendSeriesPoints] at hp
  | cons p0 rest =>
    have hmax0 : 0 ≤ listMaxQ ((p0 :: rest).map (·.timeSec)) := by
      refine le_trans (hb p0 (List.mem_cons_self p0 rest)).1 ?_
      exact le_listMaxQ _ _ (List.mem_map.mpr ⟨p0, List.mem_cons_self p0 rest, rfl⟩)
    have hpts1 : ∀ q ∈ (if listMinQ ((p0 :: rest).map (·.timeSec)) > (0.5:ℚ) then
        (⟨0, p0.value⟩ : MetricPoint) :: p0 :: rest else p0 :: rest),
        0 ≤ q.timeSec ∧ q.timeSec ≤ d := by
      split
      · intro q hq
        rcases List.mem_cons.mp hq with h | h
        · subst h
          exact ⟨le_refl 0, hd⟩
        · exact hb q h
      · exact hb
    intro p hp
    simp only [extendSeriesPoints] at hp
    split at hp
    · rw [mem_sortByTime] at hp
      exact hpts1 p hp
    · split at hp
      · rename_i hnone
        exfalso
        rw [List.getLast?_eq_none_iff] at hnone
        revert hnone
        split <;> simp
      · rename_i lastP hlast
        rw [mem_sortByTime] at hp
        rcases List.mem_append.mp hp with hp1 | hp2
        · rcases List.mem_append.mp hp1 with hpa | hpb
          · exact hpts1 p hpa
          · have hm := extendLoop_mem d _ _ p hpb
            have ht0 : (0:ℚ) ≤ min (listMaxQ ((p0 :: rest).map (·.timeSec)) + 2) d :=
              le_min (by linarith) hd
            have h05 : (0:ℚ) ≤ (0.5:ℚ) := by norm_num
            exact ⟨by linarith [hm.1], by linarith [hm.2]⟩
        · rw [List.mem_singleton] at hp2
          subst hp2
          exact ⟨hd, le_refl d⟩

theorem normExtend_points (d : ℚ) (hd : 0 ≤ d) (l : List MetricPoint) :
    (extendSeriesPoints d (normalizeSeriesPoints d l)).Pairwise ptLe ∧
    ∀ p ∈ extendSeriesPoints d (normalizeSeriesPoints d l),
      0 ≤ p.timeSec ∧ p.timeSec ≤ d :=
  ⟨extendSeriesPoints_sorted d _,
   extendSeriesPoints_bounds d hd _ (normalizeSeriesPoints_bounds d hd l)⟩

/-- Claim C3 (confirmed): after the final normalization pass every one of
the five metric series is non-decreasing in `timeSec` and every point
satisfies `0 ≤ timeSec ≤ durationMs / 1000`. -/
theorem report_series_time_invariants (report : PerfReport)
    (hd : 0 ≤ report.durationMs) :
    ∀ s ∈ [(normalizeReportTimeRange report).fpsSeries,
        (normalizeReportTimeRange report).cpuSeries,
        (normalizeReportTimeRange report).gpuSeries,
        (normalizeReportTimeRange report).memorySeries,
        (normalizeReportTimeRange report).domNodesSeries],
      s.points.Pairwise ptLe ∧
      ∀ p ∈ s.points, 0 ≤ p.timeSec ∧ p.timeSec ≤ report.durationMs / 1000 := by
  have hd2 : 0 ≤ report.durationMs / 1000 := by positivity
  intro s hs
  fin_cases hs
  · exact normExtend_points (report.durationMs / 1000) hd2 report.fpsSeries.points
  · exact normExtend_points (report.durationMs / 1000) hd2 report.cpuSeries.points
  · exact normExtend_points (report.durationMs / 1000) hd2 report.gpuSeries.points
  · exact normExtend_points (report.durationMs / 1000) hd2 report.memorySeries.points
  · exact normExtend_points (report.durationMs / 1000) hd2 report.domNodesSeries.points

/-- Witness for C3 at a 2-second report with a single fps point at `t = 3`
(clamped to 2, then extended back to 0). -/
theorem report_series_time_invariants_witness :
    (0:ℚ) ≤ repFix.durationMs ∧
    ((normalizeReportTimeRange repFix).fpsSeries.points.Pairwise ptLe ∧
      ∀ p ∈ (normalizeReportTimeRange repFix).fpsSeries.points,
        0 ≤ p.timeSec ∧ p.timeSec ≤ repFix.durationMs / 1000) := by
  have hd : (0:ℚ) ≤ repFix.durationMs := by norm_num [repFix]
  exact ⟨hd, report_series_time_invariants repFix hd
    (normalizeReportTimeRange repFix).fpsSeries (List.mem_cons_self _ _)⟩

/-- Counterexample to claim C4: a non-empty series whose single point sits
at `t = 0.3` (within the 0.5s slack) is extended forward to
`durationSec = 10` but is NOT made to begin at `t = 0` — its first point
stays at `0.3`. -/
theorem extend_not_forced_to_zero :
    extendSeriesPoints 10 [⟨3/10, 7⟩] =
      [⟨3/10, 7⟩, ⟨23/10, 7⟩, ⟨43/10, 7⟩, ⟨63/10, 7⟩, ⟨83/10, 7⟩, ⟨10, 7⟩] ∧
    (3/10 : ℚ) ≠ 0 := by
  have hloop : extendLoop 10 (23/10) 7 =
      [⟨23/10, 7⟩, ⟨43/10, 7⟩, ⟨63/10, 7⟩, ⟨83/10, 7⟩] := by
    rw [extendLoop]; norm_num
    rw [extendLoop]; norm_num
    rw [extendLoop]; norm_num
    rw [extendLoop]; norm_num
    rw [extendLoop]; norm_num
  constructor
  · have hmin : listMinQ ([(⟨3/10, 7⟩ : MetricPoint)].map (·.timeSec)) = 3/10 := by
      norm_num [listMinQ]
    have hmax : listMaxQ ([(⟨3/10, 7⟩ : MetricPoint)].map (·.timeSec)) = 3/10 := by
      norm_num [listMaxQ]
    simp only [extendSeriesPoints]
    rw [hmin, hmax]
    rw [if_neg (by norm_num), if_neg (by norm_num)]
    simp only [List.getLast?_singleton]
    rw [show min ((3:ℚ)/10 + 2) 10 = 23/10 by rw [min_def]; norm_num]
    rw [hloop]
    norm_num [sortByTime, List.insertionSort, List.orderedInsert, ptLe]
  · norm_num

/-- Claim C4 (amended): for a non-empty series whose points lie in
`[0, durationSec]`, the extension pass prepends a copy of the first value
at `t = 0` (so the series begins at 0) exactly when the first real point
lies more than 0.5s in, and appends copies of the last value up to
`t = durationSec` (so the series ends at durationSec) exactly when the
last real point lies more than 0.5s before durationSec; otherwise the
original boundary point (within 0.5s of the boundary) is kept as is. -/
theorem extend_to_bounds (d : ℚ) (p0 : MetricPoint) (rest : List MetricPoint)
    (hb : ∀ p ∈ p0 :: rest, 0 ≤ p.timeSec ∧ p.timeSec ≤ d) :
    (listMinQ ((p0 :: rest).map (·.timeSec)) > 0.5 →
      (⟨0, p0.value⟩ : MetricPoint) ∈ extendSeriesPoints d (p0 :: rest) ∧
      ∀ p ∈ extendSeriesPoints d (p0 :: rest), 0 ≤ p.timeSec) ∧
    (listMaxQ ((p0 :: rest).map (·.timeSec)) < d - 0.5 →
      ∀ lastP, (p0 :: rest).getLast? = some lastP →
        (⟨d, lastP.value⟩ : MetricPoint) ∈ extendSeriesPoints d (p0 :: rest) ∧
        ∀ p ∈ extendSeriesPoints d (p0 :: rest), p.timeSec ≤ d) := by
  have hd : 0 ≤ d :=
    le_trans (hb p0 (List.mem_cons_self p0 rest)).1 (hb p0 (List.mem_cons_self p0 rest)).2
  constructor
  · intro hmin
    constructor
    · simp only [extendSeriesPoints]
      rw [if_pos hmin]
      split
      · rw [mem_sortByTime]
        exact List.mem_cons_self _ _
      · split
        · rename_i hnone
          exfalso
          rw [List.getLast?_eq_none_iff] at hnone
          exact List.cons_ne_nil _ _ hnone
        · rw [mem_sortByTime]
          exact List.mem_append.mpr (Or.inl (List.mem_append.mpr
            (Or.inl (List.mem_cons_self _ _))))
    · intro p hp
      exact (extendSeriesPoints_bounds d hd _ hb p hp).1
  · intro hmax lastP hlast
    constructor
    · simp only [extendSeriesPoints]
      rw [if_neg (not_le.mpr hmax)]
      have hplast : (if listMinQ ((p0 :: rest).map (·.timeSec)) > (0.5:ℚ) then
          (⟨0, p0.value⟩ : MetricPoint) :: p0 :: rest else p0 :: rest).getLast? =
          some lastP := by
        split
        · rw [List.getLast?_cons_cons]
          exact hlast
        · exact hlast
      split
      · rename_i hnone
        rw [hplast] at hnone
        cases hnone
      · rename_i lp hlp
        rw [hplast] at hlp
        injection hlp with hlp2
        subst hlp2
        rw [mem_sortByTime]
        exact List.mem_append.mpr (Or.inr (List.mem_singleton.mpr rfl))
    · intro p hp
      exact (extendSeriesPoints_bounds d hd _ hb p hp).2

/-- Witness for the amended C4: the series `[(3, 7)]` over a 10-second
session gains the points `(0, 7)` and `(10, 7)`. -/
theorem extend_to_bounds_witness :
    (∀ p ∈ [(⟨3, 7⟩ : MetricPoint)], 0 ≤ p.timeSec ∧ p.timeSec ≤ (10:ℚ)) ∧
    listMinQ ([(⟨3, 7⟩ : MetricPoint)].map (·.timeSec)) > 0.5 ∧
    listMaxQ ([(⟨3, 7⟩ : MetricPoint)].map (·.timeSec)) < 10 - 0.5 ∧
    ((⟨0, 7⟩ : MetricPoint) ∈ extendSeriesPoints 10 [⟨3, 7⟩] ∧
      ∀ p ∈ extendSeriesPoints 10 [⟨3, 7⟩], 0 ≤ p.timeSec) ∧
    ((⟨10, 7⟩ : MetricPoint) ∈ extendSeriesPoints 10 [⟨3, 7⟩] ∧
      ∀ p ∈ extendSeriesPoints 10 [⟨3, 7⟩], p.timeSec ≤ 10) := by
  have hb : ∀ p ∈ [(⟨3, 7⟩ : MetricPoint)], 0 ≤ p.timeSec ∧ p.timeSec ≤ (10:ℚ) := by
    intro p hp
    rw [List.mem_singleton] at hp
    subst hp
    norm_num
  have hmin : listMinQ ([(⟨3, 7⟩ : MetricPoint)].map (·.timeSec)) > 0.5 := by
    norm_num [listMinQ]
  have hmax : listMaxQ ([(⟨3, 7⟩ : MetricPoint)].map (·.timeSec)) < 10 - 0.5 := by
    norm_num [listMaxQ]
  have h := extend_to_bounds 10 ⟨3, 7⟩ [] hb
  exact ⟨hb, hmin, hmax, h.1 hmin, h.2 hmax ⟨3, 7⟩ rfl⟩

/-! ## Claim C2 -/

theorem evMemorySingle_tss : eventTss evMemorySingle = [0, 9000000, 8500000] := by
  simp [eventTss, evMemorySingle, List.filterMap_cons, List.filterMap_nil]

theorem evMemorySingle_startTs : traceStartTs evMemorySingle = 0 := by
  rw [traceStartTs, evMemorySingle_tss]
  norm_num [listMinQ, List.foldl_cons, List.foldl_nil, min_def]

theorem evMemorySingle_endTs : traceEndTs evMemorySingle = 9000000 := by
  rw [traceEndTs, evMemorySingle_tss]
  norm_num [listMaxQ, List.foldl_cons, List.foldl_nil, max_def]

theorem evMemorySingle_span : rawTraceSpan evMemorySingle = 9000000 := by
  rw [rawTraceSpan, evMemorySingle_startTs, evMemorySingle_endTs]
  norm_num

theorem evMemorySingle_micro : traceTsIsMicroseconds evMemorySingle := by
  unfold traceTsIsMicroseconds
  rw [evMemorySingle_span]
  norm_num

theorem evMemorySingle_durMs : traceDurationMs evMemorySingle = 9000 := by
  unfold traceDurationMs
  rw [if_pos (by rw [evMemorySingle_startTs, evMemorySingle_endTs]; norm_num :
      traceStartTs evMemorySingle < traceEndTs evMemorySingle),
    if_pos evMemorySingle_micro, evMemorySingle_span]
  norm_num

theorem evMemorySingle_notTooLarge (startedAt stoppedAt : ℚ) :
    ¬ traceSpanTooLarge evMemorySingle startedAt stoppedAt := by
  intro hc
  have h2 := hc.2
  rw [evMemorySingle_durMs] at h2
  norm_num at h2

theorem evMemorySingle_div : traceTsToSec evMemorySingle = 1000000 := by
  unfold traceTsToSec
  rw [if_pos evMemorySingle_micro]

theorem evMemorySingle_useForSeries : useTraceForSeries evMemorySingle 0 10000 := by
  refine ⟨evMemorySingle_notTooLarge 0 10000, ?_, ?_⟩
  · rw [evMemorySingle_durMs]
    norm_num [wallClockDurationMs, max_def]
  · rw [evMemorySingle_durMs]
    norm_num

theorem evMemorySingle_ts0 : tsToSec evMemorySingle 0 10000 0 = 0 := by
  simp only [tsToSec]
  rw [if_neg (fun hc => evMemorySingle_notTooLarge 0 10000 hc.1),
    evMemorySingle_startTs, evMemorySingle_div]
  norm_num [wallClockDurationMs, min_def, max_def]

theorem evMemorySingle_ts9 : tsToSec evMemorySingle 0 10000 9000000 = 9 := by
  simp only [tsToSec]
  rw [if_neg (fun hc => evMemorySingle_notTooLarge 0 10000 hc.1),
    evMemorySingle_startTs, evMemorySingle_div]
  norm_num [wallClockDurationMs, min_def, max_def]

theorem evMemorySingle_ts85 : tsToSec evMemorySingle 0 10000 8500000 = 17/2 := by
  simp only [tsToSec]
  rw [if_neg (fun hc => evMemorySingle_notTooLarge 0 10000 hc.1),
    evMemorySingle_startTs, evMemorySingle_div]
  norm_num [wallClockDurationMs, min_def, max_def]

theorem evMemorySingle_b0 : bucketSecond evMemorySingle 0 10000 0 = 0 := by
  unfold bucketSecond
  rw [evMemorySingle_ts0]
  norm_num

theorem evMemorySingle_b9 : bucketSecond evMemorySingle 0 10000 9000000 = 9 := by
  unfold bucketSecond
  rw [evMemorySingle_ts9]
  norm_num

theorem evMemorySingle_acc : extractEvents evMemorySingle 0 10000 =
    { fpsMap := [(0, 1), (9, 1)], memoryPoints := [⟨17/2, 100⟩] } := by
  have hE : extractEvents evMemorySingle 0 10000 =
      extractStep evMemorySingle 0 10000
        (extractStep evMemorySingle 0 10000
          (extractStep evMemorySingle 0 10000 {}
            { name := some "DrawFrame", ts := some 0 })
          { name := some "DrawFrame", ts := some 9000000 })
        { name := some "UpdateCounters", ts := some 8500000,
          argsData := some { jsHeapSizeUsed := some 104857600 } } := rfl
  have hs1 : extractStep evMemorySingle 0 10000 {}
      { name := some "DrawFrame", ts := some 0 } = { fpsMap := [(0, 1)] } := by
    simp [extractStep, frameStep, busyStep, longTaskStep, countersStep,
      FRAME_EVENT_NAMES, bucketAdd, evMemorySingle_b0]
  have hs2 : extractStep evMemorySingle 0 10000 { fpsMap := [(0, 1)] }
      { name := some "DrawFrame", ts := some 9000000 } =
      { fpsMap := [(0, 1), (9, 1)] } := by
    simp [extractStep, frameStep, busyStep, longTaskStep, countersStep,
      FRAME_EVENT_NAMES, bucketAdd, evMemorySingle_b9]
  have hs3 : extractStep evMemorySingle 0 10000 { fpsMap := [(0, 1), (9, 1)] }
      { name := some "UpdateCounters", ts := some 8500000,
        argsData := some { jsHeapSizeUsed := some 104857600 } } =
      { fpsMap := [(0, 1), (9, 1)], memoryPoints := [⟨17/2, 100⟩] } := by
    simp [extractStep, frameStep, busyStep, longTaskStep, countersStep,
      FRAME_EVENT_NAMES, evMemorySingle_ts85]
    try norm_num
  rw [hE, hs1, hs2, hs3]

theorem evMemorySingle_useMemory : useTraceMemory evMemorySingle 0 10000 := by
  refine ⟨evMemorySingle_useForSeries, ?_, ?_⟩
  · rw [evMemorySingle_acc]
    norm_num
  · unfold memoryTraceMaxTime
    rw [evMemorySingle_acc]
    norm_num [listMaxQ, wallClockDurationMs, max_def]

/-- Counterexample to claim C2: in a 10-second session whose trace spans
9,000,000 µs, a single `UpdateCounters` reading at 8.5s makes the
trace-derived memory series the report's series even though it has only
ONE point (not more than 2 distinct buckets), and the non-empty fallback
memory series is discarded — the "more than 2 distinct buckets" condition
is not applied to the memory (or DOM) metric. -/
theorem memory_selected_with_one_bucket :
    (parseTraceReport evMemorySingle 0 10000 fbMemory).memorySeries.points =
        [⟨17/2, 100⟩] ∧
    (extractEvents evMemorySingle 0 10000).memoryPoints.length = 1 ∧
    ¬ ((extractEvents evMemorySingle 0 10000).memoryPoints.length > 2) ∧
    fallbackMemoryPoints fbMemory = [⟨1, 50⟩] ∧
    (parseTraceReport evMemorySingle 0 10000 fbMemory).memorySeries.points ≠
      fallbackMemoryPoints fbMemory := by
  have hsel : (parseTraceReport evMemorySingle 0 10000 fbMemory).memorySeries.points =
      [⟨17/2, 100⟩] := by
    simp only [parseTraceReport, if_pos evMemorySingle_useMemory]
    rw [evMemorySingle_acc]
  have hfb : fallbackMemoryPoints fbMemory = [⟨1, 50⟩] := by
    simp [fallbackMemoryPoints, fbMemory]
  refine ⟨hsel, by rw [evMemorySingle_acc]; rfl, by rw [evMemorySingle_acc]; decide,
    hfb, ?_⟩
  rw [hsel, hfb]
  intro hcontra
  simp only [List.cons.injEq, MetricPoint.mk.injEq] at hcontra
  have h17 := hcontra.1.1
  norm_num at h17

/-- Claim C2 (amended): source selection is per metric. For fps the trace
bucket series is used exactly when the trace time base is usable, there
are more than 2 distinct buckets, the buckets' covered span reaches half
the wall-clock duration, and no bucket exceeds 200; cpu and gpu drop the
200-cap condition; memory and DOM nodes instead require a non-empty
trace point list whose maximum time reaches 80% of the wall-clock
duration. When rejected, the fallback series is used — except that a gpu
trace with exactly one bucket is expanded into a constant synthetic
series instead of the (empty) gpu fallback. -/
theorem series_source_selection (events : List TraceEvent) (startedAt stoppedAt : ℚ)
    (fallback : FallbackData) :
    ((parseTraceReport events startedAt stoppedAt fallback).fpsSeries.points =
      if useTraceFps events startedAt stoppedAt then
        capFps (traceFpsPoints events startedAt stoppedAt)
      else capFps fallback.fpsSamples) ∧
    (useTraceFps events startedAt stoppedAt ↔
      useTraceForSeries events startedAt stoppedAt ∧
      (extractEvents events startedAt stoppedAt).fpsMap.length > 2 ∧
      pointsTimeSpan (traceFpsPoints events startedAt stoppedAt) ≥
        wallClockDurationMs startedAt stoppedAt / 1000 * 0.5 ∧
      traceFpsMaxValue events startedAt stoppedAt ≤ 200) ∧
    ((parseTraceReport events startedAt stoppedAt fallback).cpuSeries.points =
      if useTraceCpu events startedAt stoppedAt then
        (mapToSeries (extractEvents events startedAt stoppedAt).cpuBusyMap
          "CPU Busy" "ms").points
      else fallbackCpuPoints fallback) ∧
    ((parseTraceReport events startedAt stoppedAt fallback).gpuSeries.points =
      if useTraceGpu events startedAt stoppedAt then
        (mapToSeries (extractEvents events startedAt stoppedAt).gpuBusyMap
          "GPU Busy" "ms").points
      else
        match (mapToSeries (extractEvents events startedAt stoppedAt).gpuBusyMap
            "GPU Busy" "ms").points with
        | [p] => (gpuSinglePointSeries
            (wallClockDurationMs startedAt stoppedAt / 1000) p.value).points
        | _ => []) ∧
    ((parseTraceReport events startedAt stoppedAt fallback).memorySeries.points =
      if useTraceMemory events startedAt stoppedAt then
        (extractEvents events startedAt stoppedAt).memoryPoints
      else fallbackMemoryPoints fallback) ∧
    (useTraceMemory events startedAt stoppedAt ↔
      useTraceForSeries events startedAt stoppedAt ∧
      (extractEvents events startedAt stoppedAt).memoryPoints.length > 0 ∧
      memoryTraceMaxTime events startedAt stoppedAt ≥
        wallClockDurationMs startedAt stoppedAt / 1000 * 0.8) ∧
    ((parseTraceReport events startedAt stoppedAt fallback).domNodesSeries.points =
      if useTraceDom events startedAt stoppedAt then
        (extractEvents events startedAt stoppedAt).domPoints
      else fallbackDomPoints fallback) := by
  refine ⟨?_, Iff.rfl, ?_, ?_, ?_, Iff.rfl, ?_⟩
  · by_cases h : useTraceFps events startedAt stoppedAt <;>
      simp [parseTraceReport, h]
  · by_cases h : useTraceCpu events startedAt stoppedAt <;>
      simp [parseTraceReport, h]
  · by_cases h : useTraceGpu events startedAt stoppedAt
    · simp [parseTraceReport, h]
    · rcases hpts : (mapToSeries (extractEvents events startedAt stoppedAt).gpuBusyMap
          "GPU Busy" "ms").points with _ | ⟨p, rest⟩
      · simp [parseTraceReport, h, hpts]
      · rcases rest with _ | ⟨q, rest2⟩
        · simp [parseTraceReport, h, hpts]
        · simp [parseTraceReport, h, hpts]
  · by_cases h : useTraceMemory events startedAt stoppedAt <;>
      simp [parseTraceReport, h]
  · by_cases h : useTraceDom events startedAt stoppedAt <;>
      simp [parseTraceReport, h]

end PerfTrace
